import Mathlib

/-!
# PNF widget: verification of the temporal decision core

Shallow embedding of the date utilities (`dateUtils.js` / `utils.js`), the
decision engine (`ClaimLogic`), and the question-flow handlers
(`WidgetController`, `PNFFlow`) of the PNF widget repository.

Dates in the source are JavaScript `Date` values normalized to UTC midnight;
every comparison the decision code performs is a `getTime()` comparison.
Chronological order on such values coincides with lexicographic order on the
`(year, month, day)` triple, so the embedding represents a date as that triple
and performs comparisons through the order-embedding
`ts = year * 10000 + month * 100 + day`, which is strictly monotone (and
injective) on valid triples.  The JavaScript normalization applied by
`setUTCMonth`, `setUTCFullYear` and `setUTCDate` rolls a day that overflows
the target month forward into the following month (it never clamps); for the
day values reachable here (at most 31) the overflow is at most three days and
never crosses a year boundary, which the definitions below reproduce exactly.
-/

/-- A calendar date: a UTC-midnight JavaScript `Date` value, represented by
its year/month/day components (month 1-12, as produced by `parseDate`). -/
structure CalendarDate where
  y : Nat
  m : Nat
  d : Nat
deriving DecidableEq

/-- `_isLeapYear` from `dateUtils.js`: divisible by 4 and not by 100, or
divisible by 400. -/
def isLeapYear (year : Nat) : Bool :=
  (year % 4 == 0 && year % 100 != 0) || year % 400 == 0

/-- `_getDaysInMonth` from `dateUtils.js`: February has 29 days in leap years
and 28 otherwise; April, June, September and November have 30; the rest 31. -/
def getDaysInMonth (year month : Nat) : Nat :=
  if month = 2 then (if isLeapYear year then 29 else 28)
  else if month = 4 ∨ month = 6 ∨ month = 9 ∨ month = 11 then 30
  else 31

/-- The `CalendarDate` invariant: the triple denotes a real calendar day. -/
def CalendarDate.Valid (dt : CalendarDate) : Prop :=
  1 ≤ dt.m ∧ dt.m ≤ 12 ∧ 1 ≤ dt.d ∧ dt.d ≤ getDaysInMonth dt.y dt.m

instance (dt : CalendarDate) : Decidable dt.Valid :=
  decidable_of_iff (1 ≤ dt.m ∧ dt.m ≤ 12 ∧ 1 ≤ dt.d ∧ dt.d ≤ getDaysInMonth dt.y dt.m)
    Iff.rfl

/-- Numeric key mirroring `Date.getTime()` comparisons: on valid dates,
chronological order is lexicographic on `(y, m, d)`, hence equal to the order
of this key (`m * 100 + d < 10000` for any valid date). -/
def CalendarDate.ts (dt : CalendarDate) : Nat :=
  dt.y * 10000 + dt.m * 100 + dt.d

/-- `addMonthsUTC` from `dateUtils.js`: `d.setUTCMonth(d.getUTCMonth() + n)`.
The month index is shifted by `n` with year carry, and a day that overflows
the target month is rolled forward into the following month (JavaScript
`MakeDay` normalization; for a day value of at most 31 the target month of an
overflow is never December, so a single month of rollover is exact). -/
def addMonthsUTC (dt : CalendarDate) (n : Nat) : CalendarDate :=
  if dt.d ≤ getDaysInMonth (dt.y + (dt.m - 1 + n) / 12) ((dt.m - 1 + n) % 12 + 1) then
    ⟨dt.y + (dt.m - 1 + n) / 12, (dt.m - 1 + n) % 12 + 1, dt.d⟩
  else
    ⟨dt.y + (dt.m - 1 + n) / 12, (dt.m - 1 + n) % 12 + 2,
      dt.d - getDaysInMonth (dt.y + (dt.m - 1 + n) / 12) ((dt.m - 1 + n) % 12 + 1)⟩

/-- `subtractYearsUTC` from `dateUtils.js`:
`d.setUTCFullYear(d.getUTCFullYear() - n)`.  Month and day are kept and the
same normalization applies: a Feb 29 whose target year is not leap overflows
and rolls forward to Mar 1 (the widget only ever subtracts from years far
above `n`, so the model uses truncated `Nat` subtraction for the year). -/
def subtractYearsUTC (dt : CalendarDate) (n : Nat) : CalendarDate :=
  if dt.d ≤ getDaysInMonth (dt.y - n) dt.m then ⟨dt.y - n, dt.m, dt.d⟩
  else ⟨dt.y - n, dt.m + 1, dt.d - getDaysInMonth (dt.y - n) dt.m⟩

/-- `d.setUTCDate(d.getUTCDate() + 1)` as performed on
`relevantFilingWindowStart` in `WidgetController.handleQ3Next` and
`ClaimLogic.determineQ3Outcome`. -/
def addOneDayUTC (dt : CalendarDate) : CalendarDate :=
  if dt.d < getDaysInMonth dt.y dt.m then ⟨dt.y, dt.m, dt.d + 1⟩
  else if dt.m < 12 then ⟨dt.y, dt.m + 1, 1⟩
  else ⟨dt.y + 1, 1, 1⟩

/-- `ClaimLogic.APRIL_1_2023_UTC`, the process-wide legal cutover constant. -/
def APRIL_1_2023_UTC : CalendarDate := ⟨2023, 4, 1⟩

/-- The decision outcomes.  In the handlers, `showResult(true, ...)` displays
`PNFRequired`, `showResult(false, ...)` displays `NoPNFRequired`, and
`showQuestion(3)` advances to Q4, i.e. `NeedsFollowUp`. -/
inductive Outcome
  | PNFRequired
  | NoPNFRequired
  | NeedsFollowUp
deriving DecidableEq

/-- The five early-return branches of `WidgetController.handleQ3Next`
(src/unnamed/part_004, lines 158-197). -/
inductive Q3Branch
  | beforeWindow
  | afterWindowPreCutover
  | afterWindowPostCutoverPreCP
  | afterWindowPostCutoverPostCP
  | withinWindow
deriving DecidableEq

/-- Which branch of `WidgetController.handleQ3Next` fires, with the cutover as
a parameter (the source reads the constant `ClaimLogic.APRIL_1_2023_UTC`);
`cnpEnd` is `calculateCNP`'s `addMonthsUTC(cpEnd, 6)` and `cnpStart` is
`cpStart`. -/
def q3Branch (lastFiling cpStart cpEnd cutover : CalendarDate) : Q3Branch :=
  if lastFiling.ts < cpStart.ts then .beforeWindow
  else if lastFiling.ts > (addMonthsUTC cpEnd 6).ts ∧ lastFiling.ts < cutover.ts then
    .afterWindowPreCutover
  else if lastFiling.ts > (addMonthsUTC cpEnd 6).ts ∧ lastFiling.ts ≥ cutover.ts ∧
      cpStart.ts < cutover.ts then
    .afterWindowPostCutoverPreCP
  else if lastFiling.ts > (addMonthsUTC cpEnd 6).ts ∧ lastFiling.ts ≥ cutover.ts then
    .afterWindowPostCutoverPostCP
  else .withinWindow

/-- The within-window tail of `handleQ3Next` (part_004 lines 178-197):
`relevantFilingWindowStart = subtractYearsUTC(cnpEnd, 3) + 1 day`, then the
stale-filing check followed by the claim-period/cutover check. -/
def withinWindowOutcome (lastFiling cpStart cpEnd cutover : CalendarDate) : Outcome :=
  if lastFiling.ts < (addOneDayUTC (subtractYearsUTC (addMonthsUTC cpEnd 6) 3)).ts then
    .PNFRequired
  else if cpStart.ts < cutover.ts then .NeedsFollowUp
  else .NoPNFRequired

/-- Decision outcome of `WidgetController.handleQ3Next` (part_004 lines
152-198), with the view effects mapped to `Outcome` values. -/
def decideCore (lastFiling cpStart cpEnd cutover : CalendarDate) : Outcome :=
  match q3Branch lastFiling cpStart cpEnd cutover with
  | .beforeWindow => .PNFRequired
  | .afterWindowPreCutover => .NoPNFRequired
  | .afterWindowPostCutoverPreCP => .NeedsFollowUp
  | .afterWindowPostCutoverPostCP => .NoPNFRequired
  | .withinWindow => withinWindowOutcome lastFiling cpStart cpEnd cutover

/-- `handleQ3Next`'s decision at the constant cutover the source uses. -/
def handleQ3Decision (lastFiling cpStart cpEnd : CalendarDate) : Outcome :=
  decideCore lastFiling cpStart cpEnd APRIL_1_2023_UTC

/-- `ClaimLogic.determineQ3Outcome` (src/unnamed/part_000, lines 72-107), the
secondary/legacy decision path, with the cutover as a parameter.  It
re-derives the CNP end internally (`addMonthsUTC(cpEnd, 6)`), returns
`PNFRequired` whenever the filing lies outside
`[windowFloor, cnpEnd]`, and otherwise resolves by the claim-period/cutover
check (`{nextQuestionIndex: 3}` mapped to `NeedsFollowUp`).  `PNFFlow.handleQ3`
(src/src/scripts/flow.js, lines 239-252) performs this same computation. -/
def determineQ3OutcomeCore (lastFiling cpStart cpEnd cutover : CalendarDate) : Outcome :=
  if lastFiling.ts < (addOneDayUTC (subtractYearsUTC (addMonthsUTC cpEnd 6) 3)).ts ∨
      lastFiling.ts > (addMonthsUTC cpEnd 6).ts then
    .PNFRequired
  else if cpStart.ts < cutover.ts then .NeedsFollowUp
  else .NoPNFRequired

/-- `determineQ3Outcome` at the constant cutover the source uses. -/
def determineQ3Outcome (lastFiling cpStart cpEnd : CalendarDate) : Outcome :=
  determineQ3OutcomeCore lastFiling cpStart cpEnd APRIL_1_2023_UTC

/-- The Claim Notification Period record returned by `calculateCNP`. -/
structure CNP where
  cnpStart : CalendarDate
  cnpEnd : CalendarDate
deriving DecidableEq

/-- `ClaimLogic.calculateCNP` (part_000 lines 14-32) on valid date values: the
source's `null` returns guard only against non-`Date`/`NaN` arguments, which
the `CalendarDate` domain excludes, so here it always produces
`{cnpStart: cpStart, cnpEnd: addMonthsUTC(cpEnd, 6)}`. -/
def calculateCNP (cpStartDate cpEndDate : CalendarDate) : CNP :=
  ⟨cpStartDate, addMonthsUTC cpEndDate 6⟩

/-- `ClaimLogic.isValidClaimPeriod` (part_000 lines 60-63): a strict
`getTime()` comparison. -/
def isValidClaimPeriod (cpStartDate cpEndDate : CalendarDate) : Bool :=
  decide (cpStartDate.ts < cpEndDate.ts)

/-- The CNP computation as `handleQ3Next` performs it (part_004 lines
126-150): the claim period is validated with `isValidClaimPeriod` and only
then is `calculateCNP` run; the `none` path is the `InvalidPeriod` error
signalled to the user. -/
def computeCNP (cpStartDate cpEndDate : CalendarDate) : Option CNP :=
  if isValidClaimPeriod cpStartDate cpEndDate then
    some (calculateCNP cpStartDate cpEndDate)
  else none

/-- The numeric validation core of `parseDate` (src/unnamed/part_001 lines
769-788) applied to the year/month/day integers matched out of a
`YYYY-MM-DD` string. -/
def parseDateNum (year month day : Nat) : Option CalendarDate :=
  if year < 1000 ∨ year > 9999 ∨ month < 1 ∨ month > 12 ∨ day < 1 ∨ day > 31 then none
  else if day > getDaysInMonth year month then none
  else some ⟨year, month, day⟩

/-- The rule list of claim C1 (spec section 4.2, `decide`), transliterated
from the spec's own words, first matching rule winning, with
`CNP.start = claimPeriod.start`, `CNP.end = addMonths(claimPeriod.end, 6)`
and `windowFloor = subtractYears(CNP.end, 3) + 1 day`.  Written separately
from `decideCore` so that the agreement of the two is a theorem. -/
def specDecide (lastFiling cpStart cpEnd cutover : CalendarDate) : Outcome :=
  if lastFiling.ts < cpStart.ts then .PNFRequired
  else if lastFiling.ts > (addMonthsUTC cpEnd 6).ts ∧ lastFiling.ts < cutover.ts then
    .NoPNFRequired
  else if lastFiling.ts > (addMonthsUTC cpEnd 6).ts ∧ lastFiling.ts ≥ cutover.ts ∧
      cpStart.ts < cutover.ts then
    .NeedsFollowUp
  else if lastFiling.ts > (addMonthsUTC cpEnd 6).ts ∧ lastFiling.ts ≥ cutover.ts ∧
      cpStart.ts ≥ cutover.ts then
    .NoPNFRequired
  else if lastFiling.ts < (addOneDayUTC (subtractYearsUTC (addMonthsUTC cpEnd 6) 3)).ts then
    .PNFRequired
  else if cpStart.ts < cutover.ts then .NeedsFollowUp
  else .NoPNFRequired

/-- What the widget currently shows: a question panel (0-indexed, so index 1
is the last-filing-date question Q2) or the result panel with its verdict
flag (`showResult(true)` = PNF required). -/
inductive Display
  | question (index : Nat)
  | result (isPNFRequired : Bool)
deriving DecidableEq

/-- State of `WidgetController` (src/unnamed/part_004): the five cached model
fields, the view's three date input fields, and the current display. -/
structure WidgetState where
  lastFilingDate : Option CalendarDate
  cpStartDate : Option CalendarDate
  cpEndDate : Option CalendarDate
  cnpStartDate : Option CalendarDate
  cnpEndDate : Option CalendarDate
  inputLastFiling : Option CalendarDate
  inputCpStart : Option CalendarDate
  inputCpEnd : Option CalendarDate
  display : Display
deriving DecidableEq

/-- `WidgetController.handleQ5EverClaimed` (part_004 lines 215-223): on
`'yes'` it resets the three view inputs and shows question index 1; any other
answer shows the `PNFRequired` result.  The cached model fields are not
touched in either case. -/
def handleQ5EverClaimed (st : WidgetState) (answer : Option String) : WidgetState :=
  if answer = some "yes" then
    { st with inputLastFiling := none, inputCpStart := none, inputCpEnd := none,
              display := Display.question 1 }
  else { st with display := Display.result true }

/-- `WidgetController.handleQ4Submission` (part_004 lines 205-208): `'amended'`
shows question index 4, `'original'` shows the no-PNF result, and any other
token (including an absent one) does nothing. -/
def handleQ4Submission (st : WidgetState) (submissionType : Option String) : WidgetState :=
  if submissionType = some "amended" then { st with display := Display.question 4 }
  else if submissionType = some "original" then { st with display := Display.result false }
  else st

/-- State of `PNFFlow` (src/src/scripts/flow.js): the three date input fields,
the current question index and the displayed result text (if the result panel
is shown).  `PNFFlow` caches no model fields; the inputs are its only
accumulated data. -/
structure FlowState where
  inputLastFiling : Option CalendarDate
  inputCpStart : Option CalendarDate
  inputCpEnd : Option CalendarDate
  currentQuestionIndex : Nat
  resultText : Option String
deriving DecidableEq

/-- `PNFFlow.handleQ5` (flow.js lines 270-280): on `'yes'` it clears the three
inputs and shows question index 1 (`showQuestion` hides the result panel);
otherwise it shows the `PNF Required` result. -/
def flowHandleQ5 (st : FlowState) (answer : Option String) : FlowState :=
  if answer = some "yes" then
    { st with inputLastFiling := none, inputCpStart := none, inputCpEnd := none,
              currentQuestionIndex := 1, resultText := none }
  else { st with resultText := some "PNF Required" }

/-- `PNFFlow.handleQ4` (flow.js lines 260-263). -/
def flowHandleQ4 (st : FlowState) (submissionType : Option String) : FlowState :=
  if submissionType = some "amended" then
    { st with currentQuestionIndex := 4, resultText := none }
  else if submissionType = some "original" then
    { st with resultText := some "No PNF Required" }
  else st

/-! ## Helper lemmas -/

/-- Every month length is between 28 and 31. -/
theorem getDaysInMonth_bounds (year month : Nat) :
    28 ≤ getDaysInMonth year month ∧ getDaysInMonth year month ≤ 31 := by
  unfold getDaysInMonth
  split_ifs <;> omega

/-- Month lengths other than February do not depend on the year. -/
theorem getDaysInMonth_ne_two (year year' month : Nat) (h : month ≠ 2) :
    getDaysInMonth year month = getDaysInMonth year' month := by
  simp [getDaysInMonth, h]

/-- February's length, by the leap-year flag. -/
theorem getDaysInMonth_two (year : Nat) :
    getDaysInMonth year 2 = if isLeapYear year then 29 else 28 := by
  simp [getDaysInMonth]

/-- Adding six months strictly advances a valid date (`ts`-wise): the CNP end
lies strictly after the claim-period end. -/
theorem ts_lt_addMonthsUTC_six (dt : CalendarDate) (h : dt.Valid) :
    dt.ts < (addMonthsUTC dt 6).ts := by
  obtain ⟨hm1, hm12, hd1, hdle⟩ := h
  have hb := getDaysInMonth_bounds dt.y dt.m
  have hb' := getDaysInMonth_bounds (dt.y + (dt.m - 1 + 6) / 12) ((dt.m - 1 + 6) % 12 + 1)
  unfold addMonthsUTC
  split_ifs with hov <;> simp only [CalendarDate.ts] <;> omega

/-! ## Claim C1: decide follows the spec's precedence-ordered rule list -/

/-- Claim C1: for every last-filing date, claim period with start < end, and
cutover date, the `handleQ3Next` decision returns exactly the outcome of the
spec's rule list evaluated in order, first match winning (before-window, then
the two after-window cutover rules, then the within-window fallback with
`windowFloor = subtractYears(CNP.end, 3) + 1 day`), where
`CNP.start = claimPeriod.start` and `CNP.end = addMonths(claimPeriod.end, 6)`. -/
theorem decide_matches_spec_rule_order (lastFiling cpStart cpEnd cutover : CalendarDate)
    (_hperiod : cpStart.ts < cpEnd.ts) :
    decideCore lastFiling cpStart cpEnd cutover = specDecide lastFiling cpStart cpEnd cutover := by
  unfold decideCore q3Branch withinWindowOutcome specDecide
  split_ifs <;> first | rfl | omega

/-- Witness for C1 at a concrete input (an after-window, post-cutover filing). -/
theorem decide_matches_spec_rule_order_witness :
    decideCore ⟨2023, 11, 5⟩ ⟨2023, 2, 1⟩ ⟨2023, 4, 30⟩ ⟨2023, 4, 1⟩ =
      specDecide ⟨2023, 11, 5⟩ ⟨2023, 2, 1⟩ ⟨2023, 4, 30⟩ ⟨2023, 4, 1⟩ :=
  decide_matches_spec_rule_order ⟨2023, 11, 5⟩ ⟨2023, 2, 1⟩ ⟨2023, 4, 30⟩ ⟨2023, 4, 1⟩
    (by decide)

/-! ## Claim C3: CNP-boundary filings take the within-window branch -/

/-- Claim C3: for every claim period with start < end and every cutover date,
a last-filing date equal to `CNP.start` (= the claim-period start) or to
`CNP.end` (= `addMonths(claimPeriod.end, 6)`) makes `handleQ3Next` take the
within-window fallback branch, never the before-window or after-window
branches, so its outcome is the within-window one. -/
theorem boundary_dates_take_within_window_branch
    (lastFiling cpStart cpEnd cutover : CalendarDate)
    (hEnd : cpEnd.Valid) (hperiod : cpStart.ts < cpEnd.ts)
    (hboundary : lastFiling = cpStart ∨ lastFiling = addMonthsUTC cpEnd 6) :
    q3Branch lastFiling cpStart cpEnd cutover = Q3Branch.withinWindow ∧
      decideCore lastFiling cpStart cpEnd cutover =
        withinWindowOutcome lastFiling cpStart cpEnd cutover := by
  have hcnp := ts_lt_addMonthsUTC_six cpEnd hEnd
  have hbranch : q3Branch lastFiling cpStart cpEnd cutover = Q3Branch.withinWindow := by
    unfold q3Branch
    rcases hboundary with h | h <;> subst h <;> split_ifs <;> first | rfl | omega
  exact ⟨hbranch, by unfold decideCore; rw [hbranch]⟩

/-- Witness for C3: filing exactly on `CNP.start`, and filing exactly on
`CNP.end`, both concrete. -/
theorem boundary_dates_take_within_window_branch_witness :
    q3Branch ⟨2023, 1, 15⟩ ⟨2023, 1, 15⟩ ⟨2023, 6, 30⟩ ⟨2023, 4, 1⟩ = Q3Branch.withinWindow ∧
      q3Branch ⟨2023, 12, 30⟩ ⟨2023, 1, 15⟩ ⟨2023, 6, 30⟩ ⟨2023, 4, 1⟩ =
        Q3Branch.withinWindow :=
  ⟨(boundary_dates_take_within_window_branch ⟨2023, 1, 15⟩ ⟨2023, 1, 15⟩ ⟨2023, 6, 30⟩
      ⟨2023, 4, 1⟩ (by decide) (by decide) (Or.inl rfl)).1,
   (boundary_dates_take_within_window_branch ⟨2023, 12, 30⟩ ⟨2023, 1, 15⟩ ⟨2023, 6, 30⟩
      ⟨2023, 4, 1⟩ (by decide) (by decide) (Or.inr (by decide))).1⟩

/-! ## Claim C5: the cutover partitions the after-window outcomes -/

/-- Claim C5: with the cutover constant 2023-04-01, whenever the last filing
falls strictly after `CNP.end` and on or after the cutover, a claim-period
start of 2023-03-31 routes to `NeedsFollowUp` while a claim-period start of
2023-04-01 routes to `NoPNFRequired` (each under a valid claim period and the
same filing conditions). -/
theorem cutover_partition_routing (cpEnd cpEnd' lastFiling lastFiling' : CalendarDate)
    (hEnd : cpEnd.Valid) (hEnd' : cpEnd'.Valid)
    (_hperiod : (⟨2023, 3, 31⟩ : CalendarDate).ts < cpEnd.ts)
    (_hperiod' : (⟨2023, 4, 1⟩ : CalendarDate).ts < cpEnd'.ts)
    (hafter : (addMonthsUTC cpEnd 6).ts < lastFiling.ts)
    (hafter' : (addMonthsUTC cpEnd' 6).ts < lastFiling'.ts)
    (hpost : APRIL_1_2023_UTC.ts ≤ lastFiling.ts)
    (hpost' : APRIL_1_2023_UTC.ts ≤ lastFiling'.ts) :
    handleQ3Decision lastFiling ⟨2023, 3, 31⟩ cpEnd = Outcome.NeedsFollowUp ∧
      handleQ3Decision lastFiling' ⟨2023, 4, 1⟩ cpEnd' = Outcome.NoPNFRequired := by
  have hcnp := ts_lt_addMonthsUTC_six cpEnd hEnd
  have hcnp' := ts_lt_addMonthsUTC_six cpEnd' hEnd'
  simp only [APRIL_1_2023_UTC, CalendarDate.ts] at hcnp hcnp' hafter hafter' hpost hpost'
  constructor
  all_goals unfold handleQ3Decision decideCore q3Branch withinWindowOutcome APRIL_1_2023_UTC
  all_goals simp only [CalendarDate.ts]
  all_goals split_ifs <;> first | rfl | omega

/-- Witness for C5 at concrete after-window, post-cutover inputs. -/
theorem cutover_partition_routing_witness :
    handleQ3Decision ⟨2023, 11, 5⟩ ⟨2023, 3, 31⟩ ⟨2023, 4, 30⟩ = Outcome.NeedsFollowUp ∧
      handleQ3Decision ⟨2023, 12, 15⟩ ⟨2023, 4, 1⟩ ⟨2023, 5, 31⟩ = Outcome.NoPNFRequired :=
  cutover_partition_routing ⟨2023, 4, 30⟩ ⟨2023, 5, 31⟩ ⟨2023, 11, 5⟩ ⟨2023, 12, 15⟩
    (by decide) (by decide) (by decide) (by decide) (by decide) (by decide)
    (by decide) (by decide)

/-! ## Claim C2: primary vs. secondary decision path -/

/-- Counterexample to claim C2: on the documented cutover-partition input
shape of spec section 8 (cutover 2023-04-01, claim-period start 2023-03-31,
filing after the CNP end and on/after the cutover), the primary path
(`handleQ3Next`) answers `NeedsFollowUp` while the secondary/legacy path
(`determineQ3Outcome`) answers `PNFRequired`: the two documented paths do not
produce the same outcome.  Here the claim period is 2023-03-31 to 2023-04-30,
so the CNP end is 2023-10-30, and the filing is 2023-11-05. -/
theorem primary_secondary_diverge_on_cutover_partition :
    handleQ3Decision ⟨2023, 11, 5⟩ ⟨2023, 3, 31⟩ ⟨2023, 4, 30⟩ = Outcome.NeedsFollowUp ∧
      determineQ3Outcome ⟨2023, 11, 5⟩ ⟨2023, 3, 31⟩ ⟨2023, 4, 30⟩ = Outcome.PNFRequired := by
  decide

/-- Claim C2 amended: the primary path (`handleQ3Next`) and the
secondary/legacy path (`determineQ3Outcome`) agree on every input whose last
filing lies within the CNP window (`CNP.start <= lastFilingDate <= CNP.end`)
for any common cutover — which covers the documented within-window section 8
cases (stale-filing edge, boundary inclusivity); on the documented
after-window cutover-partition cases they diverge, the secondary path
returning `PNFRequired`. -/
theorem primary_secondary_agree_within_window
    (lastFiling cpStart cpEnd cutover : CalendarDate)
    (hlo : cpStart.ts ≤ lastFiling.ts)
    (hhi : lastFiling.ts ≤ (addMonthsUTC cpEnd 6).ts) :
    decideCore lastFiling cpStart cpEnd cutover =
      determineQ3OutcomeCore lastFiling cpStart cpEnd cutover := by
  unfold decideCore q3Branch withinWindowOutcome determineQ3OutcomeCore
  split_ifs <;> first | rfl | omega

/-- Witness for the amended C2 at a concrete within-window input. -/
theorem primary_secondary_agree_within_window_witness :
    decideCore ⟨2023, 6, 1⟩ ⟨2023, 1, 1⟩ ⟨2023, 6, 30⟩ ⟨2023, 4, 1⟩ =
      determineQ3OutcomeCore ⟨2023, 6, 1⟩ ⟨2023, 1, 1⟩ ⟨2023, 6, 30⟩ ⟨2023, 4, 1⟩ :=
  primary_secondary_agree_within_window ⟨2023, 6, 1⟩ ⟨2023, 1, 1⟩ ⟨2023, 6, 30⟩ ⟨2023, 4, 1⟩
    (by decide) (by decide)

/-! ## Claim C4: CNP computation and the InvalidPeriod failure -/

/-- Claim C4: the CNP computation as the widget performs it fails (signalling
`InvalidPeriod`) exactly when `claimPeriod.start >= claimPeriod.end`; for
every claim period with start < end it succeeds with
`CNP.start = claimPeriod.start` and `CNP.end = addMonths(claimPeriod.end, 6)`;
in particular for the period 2023-01-15 to 2023-06-30 it succeeds with CNP
end 2023-12-30. -/
theorem computeCNP_fails_iff_invalid_period (cpStartDate cpEndDate : CalendarDate) :
    (computeCNP cpStartDate cpEndDate = none ↔ cpEndDate.ts ≤ cpStartDate.ts) ∧
      (cpStartDate.ts < cpEndDate.ts →
        computeCNP cpStartDate cpEndDate =
          some ⟨cpStartDate, addMonthsUTC cpEndDate 6⟩) ∧
      computeCNP ⟨2023, 1, 15⟩ ⟨2023, 6, 30⟩ =
        some ⟨⟨2023, 1, 15⟩, ⟨2023, 12, 30⟩⟩ := by
  refine ⟨?_, ?_, by decide⟩
  · unfold computeCNP isValidClaimPeriod
    split_ifs with h <;> simp_all
  · intro h
    unfold computeCNP isValidClaimPeriod calculateCNP
    simp [h]

/-- Witness for C4: the success branch at the documented example period and
the failure branch at its reversal. -/
theorem computeCNP_fails_iff_invalid_period_witness :
    computeCNP ⟨2023, 1, 15⟩ ⟨2023, 6, 30⟩ =
        some ⟨⟨2023, 1, 15⟩, addMonthsUTC ⟨2023, 6, 30⟩ 6⟩ ∧
      computeCNP ⟨2023, 6, 30⟩ ⟨2023, 1, 15⟩ = none :=
  ⟨(computeCNP_fails_iff_invalid_period ⟨2023, 1, 15⟩ ⟨2023, 6, 30⟩).2.1 (by decide),
   (computeCNP_fails_iff_invalid_period ⟨2023, 6, 30⟩ ⟨2023, 1, 15⟩).1.mpr (by decide)⟩

/-! ## Claim C7: month addition across a leap day -/

/-- Counterexample to claim C7: `addMonthsUTC(2024-02-29, 12)` does not return
2025-02-28.  `setUTCMonth` keeps the day value 29, which overflows
February 2025 and is normalized forward, not clamped. -/
theorem addMonths_feb29_not_clamped :
    addMonthsUTC ⟨2024, 2, 29⟩ 12 ≠ ⟨2025, 2, 28⟩ := by decide

/-- Claim C7 amended: `addMonthsUTC(2024-02-29, 12)` returns 2025-03-01 — the
native rollover carries the overflowing Feb 29 into March of the non-leap
target year rather than collapsing it to Feb 28. -/
theorem addMonths_feb29_rolls_to_march :
    addMonthsUTC ⟨2024, 2, 29⟩ 12 = ⟨2025, 3, 1⟩ := by decide

/-! ## Claim C8: year subtraction keeps month and day -/

/-- Counterexample to claim C8: `subtractYearsUTC(2024-02-29, 1)` does not
collapse to Feb 28 of the non-leap year 2023. -/
theorem subtractYears_feb29_not_clamped :
    subtractYearsUTC ⟨2024, 2, 29⟩ 1 ≠ ⟨2023, 2, 28⟩ := by decide

/-- Claim C8 amended: for every valid date and every year count,
`subtractYearsUTC` returns the date with the same month and day in the target
year, except that a Feb 29 whose target year is not a leap year rolls forward
to Mar 1 of that year (native `setUTCFullYear` normalization), not back to
Feb 28. -/
theorem subtractYears_same_month_day_or_march_rollover
    (dt : CalendarDate) (n : Nat) (h : dt.Valid) :
    (¬(dt.m = 2 ∧ dt.d = 29 ∧ isLeapYear (dt.y - n) = false) →
        subtractYearsUTC dt n = ⟨dt.y - n, dt.m, dt.d⟩) ∧
      (dt.m = 2 ∧ dt.d = 29 ∧ isLeapYear (dt.y - n) = false →
        subtractYearsUTC dt n = ⟨dt.y - n, 3, 1⟩) := by
  obtain ⟨hm1, hm12, hd1, hdle⟩ := h
  constructor
  · intro hnot
    have hcond : dt.d ≤ getDaysInMonth (dt.y - n) dt.m := by
      by_cases hm : dt.m = 2
      · rw [hm, getDaysInMonth_two]
        rw [hm, getDaysInMonth_two] at hdle
        by_cases hl : isLeapYear (dt.y - n) = true
        · simp only [hl, if_true]
          split_ifs at hdle <;> omega
        · have hd29 : dt.d ≠ 29 := fun hd => hnot ⟨hm, hd, by simpa using hl⟩
          simp [hl]
          split_ifs at hdle <;> omega
      · rw [getDaysInMonth_ne_two (dt.y - n) dt.y dt.m hm]
        exact hdle
    unfold subtractYearsUTC
    rw [if_pos hcond]
  · rintro ⟨hm2, hd29, hnl⟩
    have hcond : ¬(dt.d ≤ getDaysInMonth (dt.y - n) dt.m) := by
      rw [hm2, hd29, getDaysInMonth_two]
      simp [hnl]
    unfold subtractYearsUTC
    rw [if_neg hcond, hm2, hd29, getDaysInMonth_two]
    simp [hnl]

/-- Witness for the amended C8: a leap-to-leap subtraction keeps Feb 29, and a
leap-to-common subtraction rolls to Mar 1. -/
theorem subtractYears_same_month_day_or_march_rollover_witness :
    subtractYearsUTC ⟨2024, 2, 29⟩ 4 = ⟨2020, 2, 29⟩ ∧
      subtractYearsUTC ⟨2024, 2, 29⟩ 1 = ⟨2023, 3, 1⟩ :=
  ⟨(subtractYears_same_month_day_or_march_rollover ⟨2024, 2, 29⟩ 4 (by decide)).1 (by decide),
   (subtractYears_same_month_day_or_march_rollover ⟨2024, 2, 29⟩ 1 (by decide)).2 (by decide)⟩

/-! ## Claim C9: date construction accepts exactly the real calendar days -/

/-- Counterexample to claim C9: `parseDate` also rejects years below 1000
(the source requires `1000 <= year <= 9999`), so 0999-12-31 — a real calendar
day — is rejected: construction does not succeed for every real calendar day. -/
theorem parseDate_rejects_real_day_below_year_1000 :
    parseDateNum 999 12 31 = none ∧
      (1 ≤ 12 ∧ 12 ≤ 12 ∧ 1 ≤ 31 ∧ 31 ≤ getDaysInMonth 999 12) := by decide

/-- Claim C9 amended: for years 1000-9999, date construction succeeds exactly
when the triple is a real calendar day — month within 1-12 and day within the
month's actual length, February having 29 days in leap years (divisible by 4
and not by 100, or by 400) and 28 otherwise, Apr/Jun/Sep/Nov 30, the rest 31;
outside that year range construction is rejected even for real calendar days. -/
theorem parseDate_isSome_iff_real_day (year month day : Nat)
    (hy1 : 1000 ≤ year) (hy2 : year ≤ 9999) :
    (parseDateNum year month day).isSome = true ↔
      (1 ≤ month ∧ month ≤ 12 ∧ 1 ≤ day ∧ day ≤ getDaysInMonth year month) := by
  have hb := getDaysInMonth_bounds year month
  unfold parseDateNum
  split_ifs with h1 h2 <;> simp only [Option.isSome_none, Option.isSome_some] <;>
    constructor <;> intro hc <;> first | omega | simp_all

/-- Witness for the amended C9: Feb 29 of the leap year 2024 is accepted. -/
theorem parseDate_isSome_iff_real_day_witness :
    (parseDateNum 2024 2 29).isSome = true :=
  (parseDate_isSome_iff_real_day 2024 2 29 (by decide) (by decide)).mpr (by decide)

/-! ## Claim C6: the Q5 "yes" loop-back -/

/-- Counterexample to claim C6: in `WidgetController` (part_004), answering
"yes, an earlier claim exists" at Q5 does show the last-filing-date question
(index 1) again, but the accumulated `lastFilingDate` model field is *not*
cleared — only the view's input fields are reset — so the resulting state
does not have `lastFilingDate`, `claimPeriod` and `CNP` all cleared. -/
theorem q5_yes_keeps_cached_model_fields :
    (handleQ5EverClaimed
        ⟨some ⟨2022, 5, 1⟩, some ⟨2023, 1, 1⟩, some ⟨2023, 6, 30⟩, some ⟨2023, 1, 1⟩,
          some ⟨2023, 12, 30⟩, some ⟨2022, 5, 1⟩, some ⟨2023, 1, 1⟩, some ⟨2023, 6, 30⟩,
          Display.question 4⟩
        (some "yes")).display = Display.question 1 ∧
      (handleQ5EverClaimed
        ⟨some ⟨2022, 5, 1⟩, some ⟨2023, 1, 1⟩, some ⟨2023, 6, 30⟩, some ⟨2023, 1, 1⟩,
          some ⟨2023, 12, 30⟩, some ⟨2022, 5, 1⟩, some ⟨2023, 1, 1⟩, some ⟨2023, 6, 30⟩,
          Display.question 4⟩
        (some "yes")).lastFilingDate = some ⟨2022, 5, 1⟩ := by decide

/-- Claim C6 amended: on "yes, an earlier claim exists" at Q5 the flow returns
to the last-filing-date question (index 1) with the three date input fields
cleared.  In the `PNFFlow` variant the inputs are the only accumulated data,
so everything is cleared; in the `WidgetController` variant the cached
`lastFilingDate`/claim-period/CNP model fields are left unchanged by this
transition (they are only overwritten on the next Q2/Q3 submissions). -/
theorem q5_yes_resets_inputs_and_returns_to_q2 :
    (∀ st : WidgetState,
        (handleQ5EverClaimed st (some "yes")).display = Display.question 1 ∧
        (handleQ5EverClaimed st (some "yes")).inputLastFiling = none ∧
        (handleQ5EverClaimed st (some "yes")).inputCpStart = none ∧
        (handleQ5EverClaimed st (some "yes")).inputCpEnd = none ∧
        (handleQ5EverClaimed st (some "yes")).lastFilingDate = st.lastFilingDate ∧
        (handleQ5EverClaimed st (some "yes")).cpStartDate = st.cpStartDate ∧
        (handleQ5EverClaimed st (some "yes")).cpEndDate = st.cpEndDate ∧
        (handleQ5EverClaimed st (some "yes")).cnpStartDate = st.cnpStartDate ∧
        (handleQ5EverClaimed st (some "yes")).cnpEndDate = st.cnpEndDate) ∧
      (∀ st : FlowState, flowHandleQ5 st (some "yes") = ⟨none, none, none, 1, none⟩) := by
  constructor <;> intro st <;> simp [handleQ5EverClaimed, flowHandleQ5]

/-! ## Claim C10: unknown submission-type tokens are a no-op at Q4 -/

/-- Claim C10: for any submission-type token other than `'original'` and
`'amended'` — including an absent/undefined one — the Q4 handlers of both
variants leave the state entirely unchanged: no transition, no verdict, and
the question index and all accumulated fields (last filing date, claim
period, CNP) keep their values. -/
theorem q4_unknown_token_is_noop (st : WidgetState) (fs : FlowState)
    (tok : Option String) (hno : tok ≠ some "original") (hna : tok ≠ some "amended") :
    handleQ4Submission st tok = st ∧ flowHandleQ4 fs tok = fs := by
  unfold handleQ4Submission flowHandleQ4
  rw [if_neg hna, if_neg hno, if_neg hna, if_neg hno]
  exact ⟨rfl, rfl⟩

/-- Witness for C10 at the undefined token (`none`) and a concrete state. -/
theorem q4_unknown_token_is_noop_witness :
    handleQ4Submission
        ⟨some ⟨2022, 5, 1⟩, some ⟨2023, 1, 1⟩, some ⟨2023, 6, 30⟩, some ⟨2023, 1, 1⟩,
          some ⟨2023, 12, 30⟩, none, none, none, Display.question 3⟩ none =
      ⟨some ⟨2022, 5, 1⟩, some ⟨2023, 1, 1⟩, some ⟨2023, 6, 30⟩, some ⟨2023, 1, 1⟩,
        some ⟨2023, 12, 30⟩, none, none, none, Display.question 3⟩ ∧
      flowHandleQ4 ⟨none, none, none, 3, none⟩ none = ⟨none, none, none, 3, none⟩ :=
  q4_unknown_token_is_noop
    ⟨some ⟨2022, 5, 1⟩, some ⟨2023, 1, 1⟩, some ⟨2023, 6, 30⟩, some ⟨2023, 1, 1⟩,
      some ⟨2023, 12, 30⟩, none, none, none, Display.question 3⟩
    ⟨none, none, none, 3, none⟩ none (by decide) (by decide)
